import Mathlib

/-!
Verification of the LearnHub backend (FastAPI + MongoDB marketplace for
study materials and peer tutoring).

Documents are modelled as ordered association lists from string keys to a
JSON-like value type; the three store collections (`material`, `tutor`,
`booking`) are lists of documents.  Pure request handlers from `main.py`
and the pydantic validation layer of `schemas.py` are embedded as Lean
functions; the store adapter (`database.py`, absent from the sources) is
modelled from the specification.
-/

set_option autoImplicit false

deriving instance DecidableEq for Except

namespace LearnHub

/-- JSON-like values stored in documents.  Arrays in this service only ever
hold strings (`subjects`, `modes`, `availability`), so the array constructor
carries `List String`.  `oid` is a BSON ObjectId, carried as its 24-hex
lowercase string rendering. -/
inductive JValue where
  | null
  | str (s : String)
  | num (q : Rat)
  | oid (s : String)
  | arrS (xs : List String)
  deriving DecidableEq, Repr

/-- A document: an insertion-ordered dictionary with string keys. -/
abbrev Doc := List (String × JValue)

/-- `d.get(k)` on a Python dict: the value at key `k`, if present. -/
def dget (d : Doc) (k : String) : Option JValue :=
  match d.find? (fun kv => kv.1 = k) with
  | some kv => some kv.2
  | none => none

/-- `d[k] = v` on a Python dict: replace in place if the key exists,
otherwise append at the end. -/
def dset (d : Doc) (k : String) (v : JValue) : Doc :=
  if (d.find? (fun kv => kv.1 = k)).isSome then
    d.map (fun kv => if kv.1 = k then (k, v) else kv)
  else
    d ++ [(k, v)]

/-- `del d[k]` on a Python dict. -/
def ddel (d : Doc) (k : String) : Doc :=
  d.filter (fun kv => !(kv.1 = k))

@[simp] theorem dget_nil (k : String) : dget [] k = none := rfl

theorem dget_cons (kv : String × JValue) (d : Doc) (k : String) :
    dget (kv :: d) k = if kv.1 = k then some kv.2 else dget d k := by
  by_cases h : kv.1 = k <;> simp [dget, List.find?, h]

/-- `serialize_doc` from `main.py`: rename the internal `_id` (when it is an
ObjectId) to `id`, rendered as a string; an empty (falsy) document is
returned unchanged. -/
def serialize_doc (doc : Doc) : Doc :=
  if doc.isEmpty then doc
  else
    match dget doc "_id" with
    | some (JValue.oid s) => ddel (dset doc "id" (JValue.str s)) "_id"
    | _ => doc

/-! ### Closed enumerations (`schemas.py`) -/

/-- The eight course/program literals shared by `Material.course` and
`Tutor.course`. -/
def courseEnum : List String :=
  ["Information Technology", "Electrical Engineering", "Civil Engineering",
   "Business Administration", "Education", "Nursing", "Accountancy",
   "Hospitality Management"]

/-- `Material.type` literals. -/
def materialTypeEnum : List String :=
  ["Reviewer", "Class Notes", "Handout", "Problem Set", "Cheat Sheet"]

/-- Session-mode literals (`Tutor.modes` elements and `Booking.mode`). -/
def modeEnum : List String := ["One-on-One", "Group"]

/-- `Booking.status` literals. -/
def statusEnum : List String := ["pending", "confirmed", "cancelled"]

/-! ### Python string helpers -/

/-- Boolean prefix test on character lists. -/
def isPre : List Char → List Char → Bool
  | [], _ => true
  | _ :: _, [] => false
  | a :: as, b :: bs => a = b && isPre as bs

/-- `needle in hay` for Python strings, on character lists: `needle` occurs
contiguously somewhere in `hay`. -/
def occursIn (needle : List Char) : List Char → Bool
  | [] => needle.isEmpty
  | c :: cs => isPre needle (c :: cs) || occursIn needle cs

/-- `s.lower()`: per-character lowercasing (the service's data is ASCII). -/
def pyLower (s : String) : String := ⟨s.data.map Char.toLower⟩

/-- Python truthiness of an optional string query parameter: `None` and the
empty string are falsy. -/
def truthy : Option String → Bool
  | none => false
  | some s => !(s = "")

/-- Value of an optional parameter, for use under a `truthy` guard. -/
def pval (o : Option String) : String := o.getD ""

/-- `i.get(k, "")` followed by use as a string: the string at key `k`,
defaulting to the empty string. -/
def getStrD (d : Doc) (k : String) : String :=
  match dget d k with
  | some (JValue.str s) => s
  | _ => ""

/-- `(i.get("description") or "")`: missing key and `None` both collapse to
the empty string. -/
def descrOrEmpty (d : Doc) : String := getStrD d "description"

/-- `i.get("subjects", [])` read as a list of strings. -/
def getSubjects (d : Doc) : List String :=
  match dget d "subjects" with
  | some (JValue.arrS xs) => xs
  | _ => []

/-! ### Store adapter (modelled from the spec; `database.py` is not among
the sources) -/

/-- The three collections of the document store. -/
structure Store where
  material : List Doc
  tutor : List Doc
  booking : List Doc
  deriving DecidableEq

/-- Modelled from the spec: `list(collection, filter_map)` of the store
adapter (`get_documents` of the missing `database.py`) returns all documents
whose fields equal the corresponding filter values (equality match only;
absent keys match all). -/
def get_documents (docs : List Doc) (flt : Doc) : List Doc :=
  docs.filter (fun d => flt.all (fun kv => dget d kv.1 == some kv.2))

/-- Modelled from the spec: `insert(collection, doc)` of the store adapter
(`create_document` of the missing `database.py`) persists the document with
a store-generated 24-hex identifier and returns that identifier.  The fresh
identifier is passed in as `newId`. -/
def create_document (docs : List Doc) (fields : Doc) (newId : String) :
    String × List Doc :=
  (newId, docs ++ [("_id", JValue.oid newId) :: fields])

/-! ### List endpoints (`main.py`) -/

/-- The equality filter built by `list_materials` from the optional `course`
and `subject` query parameters (empty strings are falsy and add no clause). -/
def materialFilter (course subject : Option String) : Doc :=
  (if truthy course then [("course", JValue.str (pval course))] else []) ++
  (if truthy subject then [("subject", JValue.str (pval subject))] else [])

/-- `GET /api/materials`: fetch with the equality filter, serialize, and if
`q` is truthy keep only items whose lowered title or lowered
description-or-empty contains the lowered query. -/
def list_materials (store : Store) (course subject q : Option String) :
    List Doc :=
  let docs := get_documents store.material (materialFilter course subject)
  let items := docs.map serialize_doc
  if truthy q then
    let ql := pyLower (pval q)
    items.filter (fun i =>
      occursIn ql.data (pyLower (getStrD i "title")).data ||
      occursIn ql.data (pyLower (descrOrEmpty i)).data)
  else items

/-- `GET /api/tutors`: fetch with the optional `course` equality filter,
serialize, and if `subject` is truthy keep only items some of whose subjects
contain the lowered parameter as a substring. -/
def list_tutors (store : Store) (course subject : Option String) :
    List Doc :=
  let docs := get_documents store.tutor
    (if truthy course then [("course", JValue.str (pval course))] else [])
  let items := docs.map serialize_doc
  if truthy subject then
    let sl := pyLower (pval subject)
    items.filter (fun i =>
      (getSubjects i).any (fun s => occursIn sl.data (pyLower s).data))
  else items

/-! ### Validation layer (`schemas.py`, pydantic models)

Each raw POST body is a `Doc`; a field validator returns `none` on a
validation error and otherwise the validated (possibly defaulted) value.
Pydantic reports every offending field, in declaration order; the service
rejects with a 422 when the list is nonempty. -/

/-- Required `str` field. -/
def vReqStr (raw : Doc) (k : String) : Option String :=
  match dget raw k with
  | some (JValue.str s) => some s
  | _ => none

/-- `Optional[str]` field with default `None`. -/
def vOptStr (raw : Doc) (k : String) : Option (Option String) :=
  match dget raw k with
  | none => some none
  | some JValue.null => some none
  | some (JValue.str s) => some (some s)
  | some _ => none

/-- `str` field with a default value. -/
def vStrD (raw : Doc) (k dflt : String) : Option String :=
  match dget raw k with
  | none => some dflt
  | some (JValue.str s) => some s
  | some _ => none

/-- Required `Literal[...]` field: must be one of the allowed strings. -/
def vEnumStr (raw : Doc) (k : String) (allowed : List String) : Option String :=
  match dget raw k with
  | some (JValue.str s) => if s ∈ allowed then some s else none
  | _ => none

/-- `Literal[...]` field with a default. -/
def vEnumStrD (raw : Doc) (k : String) (allowed : List String) (dflt : String) :
    Option String :=
  match dget raw k with
  | none => some dflt
  | some (JValue.str s) => if s ∈ allowed then some s else none
  | some _ => none

/-- Number field with default `dflt` and bound `lo ≤ value`. -/
def vNumGe (raw : Doc) (k : String) (dflt lo : Rat) : Option Rat :=
  match dget raw k with
  | none => some dflt
  | some (JValue.num q) => if lo ≤ q then some q else none
  | some _ => none

/-- Required number field with bound `lo ≤ value`. -/
def vReqNumGe (raw : Doc) (k : String) (lo : Rat) : Option Rat :=
  match dget raw k with
  | some (JValue.num q) => if lo ≤ q then some q else none
  | _ => none

/-- Number field with default `dflt` and strict bound `lo < value`. -/
def vNumGt (raw : Doc) (k : String) (dflt lo : Rat) : Option Rat :=
  match dget raw k with
  | none => some dflt
  | some (JValue.num q) => if lo < q then some q else none
  | some _ => none

/-- `Optional[float]` field with default `dflt` and range `lo ≤ value ≤ hi`. -/
def vOptNumRange (raw : Doc) (k : String) (dflt : Option Rat) (lo hi : Rat) :
    Option (Option Rat) :=
  match dget raw k with
  | none => some dflt
  | some JValue.null => some none
  | some (JValue.num q) => if lo ≤ q ∧ q ≤ hi then some (some q) else none
  | some _ => none

/-- `Optional[int]` field with default `dflt` and bound `lo ≤ value`; a JSON
number is an int when its denominator is 1. -/
def vOptIntGe (raw : Doc) (k : String) (dflt : Option Int) (lo : Int) :
    Option (Option Int) :=
  match dget raw k with
  | none => some dflt
  | some JValue.null => some none
  | some (JValue.num q) => if q.den = 1 ∧ lo ≤ q.num then some (some q.num) else none
  | some _ => none

/-- `List[str]` field with default `[]`. -/
def vStrList (raw : Doc) (k : String) : Option (List String) :=
  match dget raw k with
  | none => some []
  | some (JValue.arrS xs) => some xs
  | some _ => none

/-- `Optional[List[str]]` field with default `[]`. -/
def vOptStrList (raw : Doc) (k : String) : Option (Option (List String)) :=
  match dget raw k with
  | none => some (some [])
  | some JValue.null => some none
  | some (JValue.arrS xs) => some (some xs)
  | some _ => none

/-- `List[Literal["One-on-One", "Group"]]` with default `["One-on-One"]`. -/
def vModes (raw : Doc) : Option (List String) :=
  match dget raw "modes" with
  | none => some ["One-on-One"]
  | some (JValue.arrS xs) => if xs.all (· ∈ modeEnum) then some xs else none
  | some _ => none

/-- Default institution string. -/
def defaultUniversity : String := "Pamantasan ng Lungsod ng Valenzuela"

/-- A validated `Material` (`schemas.Material`). -/
structure Material where
  title : String
  description : Option String
  course : String
  subject : String
  type : String
  price : Rat
  author_name : String
  university : String
  file_url : Option String
  rating : Option Rat
  downloads : Option Int
  deriving DecidableEq

/-- Whether a given `Material` field fails validation on `raw`. -/
def materialOffends (raw : Doc) : String → Bool
  | "title" => (vReqStr raw "title").isNone
  | "description" => (vOptStr raw "description").isNone
  | "course" => (vEnumStr raw "course" courseEnum).isNone
  | "subject" => (vReqStr raw "subject").isNone
  | "type" => (vEnumStr raw "type" materialTypeEnum).isNone
  | "price" => (vNumGe raw "price" 0 0).isNone
  | "author_name" => (vReqStr raw "author_name").isNone
  | "university" => (vStrD raw "university" defaultUniversity).isNone
  | "file_url" => (vOptStr raw "file_url").isNone
  | "rating" => (vOptNumRange raw "rating" (some (mkRat 24 5)) 0 5).isNone
  | "downloads" => (vOptIntGe raw "downloads" (some 0) 0).isNone
  | _ => false

/-- `Material` fields in pydantic declaration order. -/
def materialFieldOrder : List String :=
  ["title", "description", "course", "subject", "type", "price",
   "author_name", "university", "file_url", "rating", "downloads"]

/-- Offending `Material` fields, in declaration order. -/
def materialOffenders (raw : Doc) : List String :=
  materialFieldOrder.filter (materialOffends raw)

/-- Validate a raw `Material` body: on failure, the list of offending
fields in declaration order. -/
def validateMaterial (raw : Doc) : Except (List String) Material :=
  if materialOffenders raw = [] then
    .ok { title := (vReqStr raw "title").getD ""
        , description := (vOptStr raw "description").getD none
        , course := (vEnumStr raw "course" courseEnum).getD ""
        , subject := (vReqStr raw "subject").getD ""
        , type := (vEnumStr raw "type" materialTypeEnum).getD ""
        , price := (vNumGe raw "price" 0 0).getD 0
        , author_name := (vReqStr raw "author_name").getD ""
        , university := (vStrD raw "university" defaultUniversity).getD defaultUniversity
        , file_url := (vOptStr raw "file_url").getD none
        , rating := (vOptNumRange raw "rating" (some (mkRat 24 5)) 0 5).getD none
        , downloads := (vOptIntGe raw "downloads" (some 0) 0).getD none }
  else .error (materialOffenders raw)

/-- A validated `Tutor` (`schemas.Tutor`). -/
structure Tutor where
  name : String
  course : String
  subjects : List String
  rate_per_hour : Rat
  modes : List String
  bio : Option String
  availability : Option (List String)
  rating : Option Rat
  deriving DecidableEq

/-- Whether a given `Tutor` field fails validation on `raw`. -/
def tutorOffends (raw : Doc) : String → Bool
  | "name" => (vReqStr raw "name").isNone
  | "course" => (vEnumStr raw "course" courseEnum).isNone
  | "subjects" => (vStrList raw "subjects").isNone
  | "rate_per_hour" => (vReqNumGe raw "rate_per_hour" 0).isNone
  | "modes" => (vModes raw).isNone
  | "bio" => (vOptStr raw "bio").isNone
  | "availability" => (vOptStrList raw "availability").isNone
  | "rating" => (vOptNumRange raw "rating" (some (mkRat 49 10)) 0 5).isNone
  | _ => false

/-- `Tutor` fields in pydantic declaration order. -/
def tutorFieldOrder : List String :=
  ["name", "course", "subjects", "rate_per_hour", "modes", "bio",
   "availability", "rating"]

/-- Offending `Tutor` fields, in declaration order. -/
def tutorOffenders (raw : Doc) : List String :=
  tutorFieldOrder.filter (tutorOffends raw)

/-- Validate a raw `Tutor` body. -/
def validateTutor (raw : Doc) : Except (List String) Tutor :=
  if tutorOffenders raw = [] then
    .ok { name := (vReqStr raw "name").getD ""
        , course := (vEnumStr raw "course" courseEnum).getD ""
        , subjects := (vStrList raw "subjects").getD []
        , rate_per_hour := (vReqNumGe raw "rate_per_hour" 0).getD 0
        , modes := (vModes raw).getD []
        , bio := (vOptStr raw "bio").getD none
        , availability := (vOptStrList raw "availability").getD none
        , rating := (vOptNumRange raw "rating" (some (mkRat 49 10)) 0 5).getD none }
  else .error (tutorOffenders raw)

/-- A validated `Booking` (`schemas.Booking`). -/
structure Booking where
  tutor_id : String
  student_name : String
  student_email : String
  mode : String
  session_datetime : String
  duration_hours : Rat
  group_size : Option Int
  notes : Option String
  status : String
  deriving DecidableEq

/-- Whether a given `Booking` field fails validation on `raw`. -/
def bookingOffends (raw : Doc) : String → Bool
  | "tutor_id" => (vReqStr raw "tutor_id").isNone
  | "student_name" => (vReqStr raw "student_name").isNone
  | "student_email" => (vReqStr raw "student_email").isNone
  | "mode" => (vEnumStr raw "mode" modeEnum).isNone
  | "session_datetime" => (vReqStr raw "session_datetime").isNone
  | "duration_hours" => (vNumGt raw "duration_hours" 1 0).isNone
  | "group_size" => (vOptIntGe raw "group_size" none 2).isNone
  | "notes" => (vOptStr raw "notes").isNone
  | "status" => (vEnumStrD raw "status" statusEnum "pending").isNone
  | _ => false

/-- `Booking` fields in pydantic declaration order. -/
def bookingFieldOrder : List String :=
  ["tutor_id", "student_name", "student_email", "mode", "session_datetime",
   "duration_hours", "group_size", "notes", "status"]

/-- Offending `Booking` fields, in declaration order. -/
def bookingOffenders (raw : Doc) : List String :=
  bookingFieldOrder.filter (bookingOffends raw)

/-- Validate a raw `Booking` body. -/
def validateBooking (raw : Doc) : Except (List String) Booking :=
  if bookingOffenders raw = [] then
    .ok { tutor_id := (vReqStr raw "tutor_id").getD ""
        , student_name := (vReqStr raw "student_name").getD ""
        , student_email := (vReqStr raw "student_email").getD ""
        , mode := (vEnumStr raw "mode" modeEnum).getD ""
        , session_datetime := (vReqStr raw "session_datetime").getD ""
        , duration_hours := (vNumGt raw "duration_hours" 1 0).getD 1
        , group_size := (vOptIntGe raw "group_size" none 2).getD none
        , notes := (vOptStr raw "notes").getD none
        , status := (vEnumStrD raw "status" statusEnum "pending").getD "pending" }
  else .error (bookingOffenders raw)

/-! ### Document encodings of validated models -/

/-- Encode an optional string as JSON. -/
def optStrJ : Option String → JValue
  | none => JValue.null
  | some s => JValue.str s

/-- Encode an optional number as JSON. -/
def optNumJ : Option Rat → JValue
  | none => JValue.null
  | some q => JValue.num q

/-- Encode an optional integer as JSON. -/
def optIntJ : Option Int → JValue
  | none => JValue.null
  | some n => JValue.num (n : Rat)

/-- Encode an optional string list as JSON. -/
def optArrJ : Option (List String) → JValue
  | none => JValue.null
  | some xs => JValue.arrS xs

/-- The document body of a `Material`, in schema field order (the persisted
shape is exactly the fields of the schema plus the store-assigned id). -/
def materialFields (m : Material) : Doc :=
  [("title", JValue.str m.title), ("description", optStrJ m.description),
   ("course", JValue.str m.course), ("subject", JValue.str m.subject),
   ("type", JValue.str m.type), ("price", JValue.num m.price),
   ("author_name", JValue.str m.author_name),
   ("university", JValue.str m.university),
   ("file_url", optStrJ m.file_url), ("rating", optNumJ m.rating),
   ("downloads", optIntJ m.downloads)]

/-- The document body of a `Tutor`. -/
def tutorFields (t : Tutor) : Doc :=
  [("name", JValue.str t.name), ("course", JValue.str t.course),
   ("subjects", JValue.arrS t.subjects),
   ("rate_per_hour", JValue.num t.rate_per_hour),
   ("modes", JValue.arrS t.modes), ("bio", optStrJ t.bio),
   ("availability", optArrJ t.availability), ("rating", optNumJ t.rating)]

/-- The document body of a `Booking`. -/
def bookingFields (b : Booking) : Doc :=
  [("tutor_id", JValue.str b.tutor_id),
   ("student_name", JValue.str b.student_name),
   ("student_email", JValue.str b.student_email),
   ("mode", JValue.str b.mode),
   ("session_datetime", JValue.str b.session_datetime),
   ("duration_hours", JValue.num b.duration_hours),
   ("group_size", optIntJ b.group_size), ("notes", optStrJ b.notes),
   ("status", JValue.str b.status)]

/-! ### ObjectId parsing and the booking flow (`main.py`) -/

/-- Hexadecimal digit test. -/
def isHexChar (c : Char) : Bool :=
  c.isDigit || ('a' ≤ c && c ≤ 'f') || ('A' ≤ c && c ≤ 'F')

/-- A string is a valid BSON ObjectId when it is 24 hexadecimal characters. -/
def isValidOid (s : String) : Bool :=
  s.length = 24 && s.data.all isHexChar

/-- `ObjectId(s)`: raises (here `none`) unless `s` is a valid 24-hex id; the
canonical rendering is lowercase. -/
def parseOid (s : String) : Option String :=
  if isValidOid s then some (pyLower s) else none

/-- `collection.find_one({"_id": tid})`. -/
def find_one_id (docs : List Doc) (tid : String) : Option Doc :=
  docs.find? (fun d => dget d "_id" == some (JValue.oid tid))

/-- Python falsiness of `find_one`'s result (`None` or an empty dict). -/
def pyFalsyDoc : Option Doc → Bool
  | none => true
  | some d => d.isEmpty

/-- Outcome of `POST /api/bookings`. -/
inductive BookingOutcome where
  /-- 422: request body failed schema validation on these fields. -/
  | invalid (fields : List String)
  /-- 400 "Invalid tutor_id". -/
  | badTutorId
  /-- 404 "Tutor not found". -/
  | tutorMissing
  /-- 200 with body `{"id": id, "status": status}`. -/
  | created (id status : String)
  deriving DecidableEq

/-- `create_booking` from `main.py`, given an already-validated body:
parse `tutor_id` (400 on failure), look the tutor up (404 when absent),
otherwise insert the booking and answer with the new id and `"pending"`. -/
def create_booking (store : Store) (b : Booking) (newId : String) :
    BookingOutcome × Store :=
  match parseOid b.tutor_id with
  | none => (BookingOutcome.badTutorId, store)
  | some tid =>
    if pyFalsyDoc (find_one_id store.tutor tid) then
      (BookingOutcome.tutorMissing, store)
    else
      let (i, docs) := create_document store.booking (bookingFields b) newId
      (BookingOutcome.created i "pending", { store with booking := docs })

/-- `POST /api/bookings` including framework validation of the body. -/
def post_booking (store : Store) (raw : Doc) (newId : String) :
    BookingOutcome × Store :=
  match validateBooking raw with
  | Except.error es => (BookingOutcome.invalid es, store)
  | Except.ok b => create_booking store b newId

/-- `create_material` from `main.py`, given an already-validated body. -/
def create_material (store : Store) (m : Material) (newId : String) :
    String × Store :=
  let (i, docs) := create_document store.material (materialFields m) newId
  (i, { store with material := docs })

/-- `POST /api/materials` including framework validation of the body:
422 with the offending fields, or the new id. -/
def post_material (store : Store) (raw : Doc) (newId : String) :
    Except (List String) String × Store :=
  match validateMaterial raw with
  | Except.error es => (Except.error es, store)
  | Except.ok m =>
    let (i, s2) := create_material store m newId
    (Except.ok i, s2)

/-- `create_tutor` from `main.py`, given an already-validated body. -/
def create_tutor (store : Store) (t : Tutor) (newId : String) :
    String × Store :=
  let (i, docs) := create_document store.tutor (tutorFields t) newId
  (i, { store with tutor := docs })

/-- `POST /api/tutors` including framework validation of the body. -/
def post_tutor (store : Store) (raw : Doc) (newId : String) :
    Except (List String) String × Store :=
  match validateTutor raw with
  | Except.error es => (Except.error es, store)
  | Except.ok t =>
    let (i, s2) := create_tutor store t newId
    (Except.ok i, s2)

/-! ### Startup seeding (`seed_demo` in `main.py`) -/

/-- First demo material, with its store-assigned id. -/
def demoMaterialA (i : String) : Doc :=
  [("_id", JValue.oid i),
   ("title", JValue.str "Data Structures Reviewer"),
   ("description", JValue.str "Key concepts + sample problems"),
   ("course", JValue.str "Information Technology"),
   ("subject", JValue.str "Data Structures"),
   ("type", JValue.str "Reviewer"),
   ("price", JValue.num 50),
   ("author_name", JValue.str "Alex Cruz"),
   ("university", JValue.str "Pamantasan ng Lungsod ng Valenzuela"),
   ("file_url", JValue.null),
   ("rating", JValue.num (mkRat 49 10)),
   ("downloads", JValue.num 120)]

/-- Second demo material. -/
def demoMaterialB (i : String) : Doc :=
  [("_id", JValue.oid i),
   ("title", JValue.str "Circuit Analysis Handout"),
   ("description", JValue.str "Ohm's law to Thevenin"),
   ("course", JValue.str "Electrical Engineering"),
   ("subject", JValue.str "Circuit Analysis"),
   ("type", JValue.str "Handout"),
   ("price", JValue.num 0),
   ("author_name", JValue.str "J. Dizon"),
   ("university", JValue.str "Pamantasan ng Lungsod ng Valenzuela"),
   ("file_url", JValue.null),
   ("rating", JValue.num (mkRat 47 10)),
   ("downloads", JValue.num 88)]

/-- First demo tutor. -/
def demoTutorA (i : String) : Doc :=
  [("_id", JValue.oid i),
   ("name", JValue.str "Maria Santos"),
   ("course", JValue.str "Information Technology"),
   ("subjects", JValue.arrS ["Programming 1", "Data Structures"]),
   ("rate_per_hour", JValue.num 200),
   ("modes", JValue.arrS ["One-on-One", "Group"]),
   ("bio", JValue.str "3rd year IT student, dean's lister"),
   ("availability", JValue.arrS ["Mon 7-9pm", "Wed 8-10pm"]),
   ("rating", JValue.num (mkRat 49 10))]

/-- Second demo tutor. -/
def demoTutorB (i : String) : Doc :=
  [("_id", JValue.oid i),
   ("name", JValue.str "Mark Reyes"),
   ("course", JValue.str "Civil Engineering"),
   ("subjects", JValue.arrS ["Statics", "Strength of Materials"]),
   ("rate_per_hour", JValue.num 250),
   ("modes", JValue.arrS ["One-on-One"]),
   ("bio", JValue.str "Board topnotcher reviewee"),
   ("availability", JValue.arrS ["Sat 2-5pm"]),
   ("rating", JValue.num (mkRat 24 5))]

/-- `seed_demo`: when the handle is `none` (store unreachable) return with no
effect; otherwise insert the two demo materials when `material` is empty and
the two demo tutors when `tutor` is empty.  `i1`–`i4` are the ids the store
assigns on insertion. -/
def seed_demo : Option Store → String → String → String → String → Option Store
  | none, _, _, _, _ => none
  | some st, i1, i2, i3, i4 =>
    let st1 :=
      if st.material.length = 0 then
        { st with material := st.material ++ [demoMaterialA i1, demoMaterialB i2] }
      else st
    let st2 :=
      if st1.tutor.length = 0 then
        { st1 with tutor := st1.tutor ++ [demoTutorA i3, demoTutorB i4] }
      else st1
    some st2

/-! ### Dictionary lemmas -/

theorem dget_ddel (d : Doc) (k k' : String) :
    dget (ddel d k) k' = if k' = k then none else dget d k' := by
  induction d with
  | nil => simp [ddel, dget]
  | cons kv d ih =>
    simp only [ddel, List.filter_cons] at *
    by_cases h1 : kv.1 = k <;> by_cases h2 : kv.1 = k' <;>
      simp_all [dget_cons, ddel]

theorem dget_map_set_same (d : Doc) (k : String) (v : JValue) :
    dget (d.map (fun kv => if kv.1 = k then (k, v) else kv)) k =
      (dget d k).map (fun _ => v) := by
  induction d with
  | nil => simp [dget]
  | cons kv d ih =>
    by_cases h : kv.1 = k <;> simp [dget_cons, h, ih]

theorem dget_map_set_other (d : Doc) (k k' : String) (v : JValue) (h : k' ≠ k) :
    dget (d.map (fun kv => if kv.1 = k then (k, v) else kv)) k' = dget d k' := by
  induction d with
  | nil => simp [dget]
  | cons kv d ih =>
    by_cases hk : kv.1 = k
    · have : k ≠ k' := fun e => h e.symm
      simp [dget_cons, hk, this, ih]
    · simp [dget_cons, hk, ih]

theorem dget_append_single (d : Doc) (k k' : String) (v : JValue) :
    dget (d ++ [(k, v)]) k' =
      match dget d k' with
      | some w => some w
      | none => if k = k' then some v else none := by
  induction d with
  | nil => by_cases h : k = k' <;> simp [dget, List.find?, h]
  | cons kv d ih =>
    by_cases h : kv.1 = k' <;> simp [dget_cons, h, ih]

theorem dget_dset_same (d : Doc) (k : String) (v : JValue) :
    dget (dset d k v) k = some v := by
  unfold dset
  by_cases h : (d.find? (fun kv => kv.1 = k)).isSome
  · rw [if_pos h, dget_map_set_same]
    rcases hf : d.find? (fun kv => kv.1 = k) with _ | kv
    · rw [hf] at h; simp at h
    · simp [dget, hf]
  · rw [if_neg h, dget_append_single]
    rcases hf : d.find? (fun kv => kv.1 = k) with _ | kv
    · simp [dget, hf]
    · rw [hf] at h; simp at h

theorem dget_dset_other (d : Doc) (k k' : String) (v : JValue) (h : k' ≠ k) :
    dget (dset d k v) k' = dget d k' := by
  unfold dset
  by_cases hs : (d.find? (fun kv => kv.1 = k)).isSome
  · rw [if_pos hs, dget_map_set_other _ _ _ _ h]
  · rw [if_neg hs, dget_append_single]
    rcases hg : dget d k' with _ | w
    · show (if k = k' then some v else none) = none
      rw [if_neg (fun e => h e.symm)]
    · rfl

theorem dget_ne_nil (d : Doc) (k : String) (v : JValue) (h : dget d k = some v) :
    d.isEmpty = false := by
  cases d with
  | nil => simp [dget] at h
  | cons kv d => rfl

/-- `C7`: for every document carrying an internal ObjectId identifier,
serialization removes the `_id` key, adds an `id` key holding the identifier
rendered as a string, and leaves the value at every other key unchanged. -/
theorem claim_C7_serialize (doc : Doc) (s : String)
    (h : dget doc "_id" = some (JValue.oid s)) :
    dget (serialize_doc doc) "id" = some (JValue.str s) ∧
    dget (serialize_doc doc) "_id" = none ∧
    ∀ k, k ≠ "_id" → k ≠ "id" → dget (serialize_doc doc) k = dget doc k := by
  have hne : doc.isEmpty = false := dget_ne_nil doc "_id" _ h
  have hser : serialize_doc doc = ddel (dset doc "id" (JValue.str s)) "_id" := by
    unfold serialize_doc
    rw [hne, h]
    rfl
  refine ⟨?_, ?_, ?_⟩
  · rw [hser, dget_ddel]
    simp [dget_dset_same]
  · rw [hser, dget_ddel]
    simp
  · intro k hk1 hk2
    rw [hser, dget_ddel, if_neg hk1, dget_dset_other _ _ _ _ hk2]

/-- Witness for `C7` on a concrete two-field document. -/
theorem claim_C7_serialize_witness :
    dget (serialize_doc [("_id", JValue.oid "abcdef"), ("x", JValue.str "y")])
        "id" = some (JValue.str "abcdef") ∧
    dget (serialize_doc [("_id", JValue.oid "abcdef"), ("x", JValue.str "y")])
        "_id" = none ∧
    dget (serialize_doc [("_id", JValue.oid "abcdef"), ("x", JValue.str "y")])
        "x" = some (JValue.str "y") := by
  have h := claim_C7_serialize
    [("_id", JValue.oid "abcdef"), ("x", JValue.str "y")] "abcdef" (by decide)
  exact ⟨h.1, h.2.1, h.2.2 "x" (by decide) (by decide)⟩

/-! ### Substring characterization -/

/-- `n` occurs contiguously inside `h`. -/
def SubAt (n h : List Char) : Prop := ∃ l r, h = l ++ n ++ r

theorem isPre_iff (n h : List Char) :
    isPre n h = true ↔ ∃ r, h = n ++ r := by
  induction n generalizing h with
  | nil => simp [isPre]
  | cons a as ih =>
    cases h with
    | nil => simp [isPre]
    | cons b bs =>
      simp only [isPre, Bool.and_eq_true, decide_eq_true_eq, ih,
        List.cons_append, List.cons.injEq]
      constructor
      · rintro ⟨rfl, r, rfl⟩
        exact ⟨r, rfl, rfl⟩
      · rintro ⟨r, rfl, rfl⟩
        exact ⟨rfl, r, rfl⟩

theorem occursIn_iff (n h : List Char) :
    occursIn n h = true ↔ SubAt n h := by
  induction h with
  | nil =>
    simp only [occursIn, List.isEmpty_iff, SubAt]
    constructor
    · rintro rfl
      exact ⟨[], [], rfl⟩
    · rintro ⟨l, r, he⟩
      rcases List.append_eq_nil.mp (List.append_eq_nil.mp he.symm).1 with ⟨_, h2⟩
      exact h2
  | cons c cs ih =>
    simp only [occursIn, Bool.or_eq_true, isPre_iff, ih, SubAt]
    constructor
    · rintro (⟨r, he⟩ | ⟨l, r, he⟩)
      · exact ⟨[], r, by simp [he]⟩
      · exact ⟨c :: l, r, by simp [he]⟩
    · rintro ⟨l, r, he⟩
      cases l with
      | nil =>
        exact Or.inl ⟨r, by simpa using he⟩
      | cons x xs =>
        simp only [List.cons_append, List.cons.injEq] at he
        exact Or.inr ⟨xs, r, he.2⟩

theorem occursIn_nil_left (h : List Char) : occursIn [] h = true := by
  cases h <;> simp [occursIn, isPre]

/-! ### `C3`: substring search on materials -/

/-- The claim's predicate on a serialized material item: the lowered query
occurs in the lowered title or in the lowered description-or-empty. -/
def materialMatch (qs : String) (i : Doc) : Bool :=
  occursIn (pyLower qs).data (pyLower (getStrD i "title")).data ||
  occursIn (pyLower qs).data (pyLower (descrOrEmpty i)).data

/-- `C3`: with `q` present, `GET /api/materials` returns exactly the
serialized documents that satisfy the (case-insensitive) title-OR-description
substring predicate, after the optional equality filters. -/
theorem claim_C3_materials_search (store : Store)
    (course subject : Option String) (qs : String) :
    list_materials store course subject (some qs) =
      ((get_documents store.material (materialFilter course subject)).map
        serialize_doc).filter (materialMatch qs) ∧
    ∀ i : Doc, materialMatch qs i = true ↔
      (SubAt (pyLower qs).data (pyLower (getStrD i "title")).data ∨
       SubAt (pyLower qs).data (pyLower (descrOrEmpty i)).data) := by
  constructor
  · by_cases hq : qs = ""
    · subst hq
      have hall : ∀ i : Doc, materialMatch "" i = true := by
        intro i
        have h0 : (pyLower "").data = ([] : List Char) := rfl
        simp only [materialMatch, h0, occursIn_nil_left, Bool.true_or]
      rw [List.filter_eq_self.mpr (fun i _ => hall i)]
      simp [list_materials, truthy]
    · have ht : truthy (some qs) = true := by
        simp [truthy, hq]
      simp only [list_materials, ht, if_true]
      rfl
  · intro i
    simp [materialMatch, occursIn_iff]

/-! ### `C4`: subject search on tutors -/

/-- The `course` equality filter built by `list_tutors`. -/
def tutorFilter (course : Option String) : Doc :=
  if truthy course then [("course", JValue.str (pval course))] else []

/-- The claim's predicate on a serialized tutor item: some element of
`subjects` contains the lowered parameter as a substring. -/
def tutorMatch (ss : String) (i : Doc) : Bool :=
  (getSubjects i).any (fun s => occursIn (pyLower ss).data (pyLower s).data)

/-- A tutor document with an empty `subjects` list. -/
def cexTutor : Doc := [("name", JValue.str "T"), ("subjects", JValue.arrS [])]

/-- A store holding only `cexTutor`. -/
def cexStore : Store := ⟨[], [cexTutor], []⟩

/-- `C4` counterexample: with `subject` present but empty, `list_tutors`
applies no reduction at all (Python truthiness), so a tutor with an empty
`subjects` list is returned even though no element of its subjects contains
the query — the claimed "exactly those documents" equality fails. -/
theorem claim_C4_counterexample :
    ¬ (list_tutors cexStore none (some "") =
       ((get_documents cexStore.tutor (tutorFilter none)).map
         serialize_doc).filter (tutorMatch "")) := by
  decide

/-- `C4` (amended: `subject` present *and non-empty*): `GET /api/tutors`
returns exactly the serialized documents matching the course filter for
which some element of `subjects` contains the lowered parameter as a
(case-insensitive) substring. -/
theorem claim_C4_tutors_search (store : Store) (course : Option String)
    (ss : String) (h : ss ≠ "") :
    list_tutors store course (some ss) =
      ((get_documents store.tutor (tutorFilter course)).map
        serialize_doc).filter (tutorMatch ss) ∧
    ∀ i : Doc, tutorMatch ss i = true ↔
      ∃ s ∈ getSubjects i, SubAt (pyLower ss).data (pyLower s).data := by
  constructor
  · have ht : truthy (some ss) = true := by
      simp [truthy, h]
    simp only [list_tutors, tutorFilter, ht, if_true]
    rfl
  · intro i
    simp [tutorMatch, List.any_eq_true, occursIn_iff]

/-- Witness for the amended `C4` at a concrete store and query. -/
theorem claim_C4_tutors_search_witness :
    ("data" ≠ "") ∧
    list_tutors ⟨[], [demoTutorA "aaaaaaaaaaaaaaaaaaaaaaaa"], []⟩ none
        (some "data") =
      ((get_documents
          (Store.tutor ⟨[], [demoTutorA "aaaaaaaaaaaaaaaaaaaaaaaa"], []⟩)
          (tutorFilter none)).map serialize_doc).filter (tutorMatch "data") :=
  ⟨by decide,
   (claim_C4_tutors_search ⟨[], [demoTutorA "aaaaaaaaaaaaaaaaaaaaaaaa"], []⟩
     none "data" (by decide)).1⟩

/-! ### `C1`: booking creation flow -/

theorem pyFalsy_find_one (docs : List Doc) (tid : String) :
    pyFalsyDoc (find_one_id docs tid) = (find_one_id docs tid).isNone := by
  rcases h : find_one_id docs tid with _ | d
  · rfl
  · have hp := List.find?_some h
    rw [beq_iff_eq] at hp
    simp only [pyFalsyDoc, Option.isNone_some]
    exact dget_ne_nil d "_id" _ hp

/-- `C1`: for a booking body that passes schema validation, the handler
returns 400 (and inserts nothing) when `tutor_id` is not 24-hex, 404 (and
inserts nothing) when no tutor document carries that identifier, and
otherwise appends the booking and answers with the store-assigned id and
`"pending"`. -/
theorem claim_C1_create_booking (store : Store) (raw : Doc) (b : Booking)
    (newId : String) (hv : validateBooking raw = Except.ok b) :
    post_booking store raw newId =
      if isValidOid b.tutor_id = false then
        (BookingOutcome.badTutorId, store)
      else if find_one_id store.tutor (pyLower b.tutor_id) = none then
        (BookingOutcome.tutorMissing, store)
      else
        (BookingOutcome.created newId "pending",
         { store with
            booking := store.booking ++
              [("_id", JValue.oid newId) :: bookingFields b] }) := by
  simp only [post_booking, hv]
  unfold create_booking parseOid
  cases hvo : isValidOid b.tutor_id with
  | false => simp
  | true =>
    by_cases hf : find_one_id store.tutor (pyLower b.tutor_id) = none
    · simp [hf, pyFalsy_find_one, pyFalsyDoc, create_document]
    · simp [hf, pyFalsy_find_one, create_document]

/-- Witness for `C1`: a validated body whose `tutor_id` is not 24-hex is
answered with 400 and the store is unchanged. -/
theorem claim_C1_create_booking_witness :
    post_booking ⟨[], [], []⟩
        [("tutor_id", JValue.str "abc"), ("student_name", JValue.str "X"),
         ("student_email", JValue.str "x@y"),
         ("mode", JValue.str "One-on-One"),
         ("session_datetime", JValue.str "Mon 7pm"),
         ("duration_hours", JValue.num (mkRat 3 2))] "eeeeeeeeeeeeeeeeeeeeeeee" =
      (BookingOutcome.badTutorId, ⟨[], [], []⟩) := by
  rw [claim_C1_create_booking ⟨[], [], []⟩ _
    ⟨"abc", "X", "x@y", "One-on-One", "Mon 7pm", mkRat 3 2, none, none, "pending"⟩
    "eeeeeeeeeeeeeeeeeeeeeeee" (by decide)]
  decide

/-! ### `C10`: response status versus stored status -/

/-- `C10`: a successful `POST /api/bookings` always answers with the
constant status `"pending"`, while the inserted booking document keeps the
client-supplied status — so the stored status can differ from the status in
the response. -/
theorem claim_C10_status_divergence (store : Store) (b : Booking)
    (newId : String) (hv : isValidOid b.tutor_id = true)
    (hf : find_one_id store.tutor (pyLower b.tutor_id) ≠ none) :
    (create_booking store b newId).1 = BookingOutcome.created newId "pending" ∧
    (create_booking store b newId).2.booking =
      store.booking ++ [("_id", JValue.oid newId) :: bookingFields b] ∧
    dget (("_id", JValue.oid newId) :: bookingFields b) "status" =
      some (JValue.str b.status) := by
  refine ⟨?_, ?_, ?_⟩
  · unfold create_booking parseOid
    simp [hv, pyFalsy_find_one, hf, create_document]
  · unfold create_booking parseOid
    simp [hv, pyFalsy_find_one, hf, create_document]
  · simp [bookingFields, dget_cons]

/-- Witness for `C10`: a booking posted with status `"confirmed"` is stored
as `"confirmed"` but answered with `"pending"`. -/
theorem claim_C10_status_divergence_witness :
    (create_booking ⟨[], [[("_id", JValue.oid "aaaaaaaaaaaaaaaaaaaaaaaa")]], []⟩
        ⟨"aaaaaaaaaaaaaaaaaaaaaaaa", "X", "x@y", "One-on-One", "Mon 7pm",
         mkRat 3 2, none, none, "confirmed"⟩
        "bbbbbbbbbbbbbbbbbbbbbbbb").1 =
      BookingOutcome.created "bbbbbbbbbbbbbbbbbbbbbbbb" "pending" ∧
    dget (("_id", JValue.oid "bbbbbbbbbbbbbbbbbbbbbbbb") ::
        bookingFields
          ⟨"aaaaaaaaaaaaaaaaaaaaaaaa", "X", "x@y", "One-on-One", "Mon 7pm",
           mkRat 3 2, none, none, "confirmed"⟩) "status" =
      some (JValue.str "confirmed") := by
  have h := claim_C10_status_divergence
    ⟨[], [[("_id", JValue.oid "aaaaaaaaaaaaaaaaaaaaaaaa")]], []⟩
    ⟨"aaaaaaaaaaaaaaaaaaaaaaaa", "X", "x@y", "One-on-One", "Mon 7pm",
     mkRat 3 2, none, none, "confirmed"⟩
    "bbbbbbbbbbbbbbbbbbbbbbbb" (by decide) (by decide)
  exact ⟨h.1, h.2.2⟩

/-! ### `C2`: closed enumerations -/

theorem filter_ne_nil_of_mem {α : Type} (l : List α) (p : α → Bool) (k : α)
    (hk : k ∈ l) (h : p k = true) : l.filter p ≠ [] :=
  List.ne_nil_of_mem (List.mem_filter.mpr ⟨hk, h⟩)

theorem post_material_error (store : Store) (raw : Doc) (newId : String)
    (h : materialOffenders raw ≠ []) :
    post_material store raw newId =
      (Except.error (materialOffenders raw), store) := by
  simp [post_material, validateMaterial, h]

theorem post_tutor_error (store : Store) (raw : Doc) (newId : String)
    (h : tutorOffenders raw ≠ []) :
    post_tutor store raw newId =
      (Except.error (tutorOffenders raw), store) := by
  simp [post_tutor, validateTutor, h]

theorem post_booking_error (store : Store) (raw : Doc) (newId : String)
    (h : bookingOffenders raw ≠ []) :
    post_booking store raw newId =
      (BookingOutcome.invalid (bookingOffenders raw), store) := by
  simp [post_booking, validateBooking, h]

/-- `C2`: each closed enumeration (course, material type, session mode,
booking status) rejects outside values — the body fails validation, the
request is answered with a 422-class error and nothing is inserted — while
values inside the enumeration pass the membership check. -/
theorem claim_C2_closed_enums (store : Store) (raw : Doc) (newId c : String)
    (xs : List String) :
    (dget raw "course" = some (JValue.str c) → c ∉ courseEnum →
      post_material store raw newId =
        (Except.error (materialOffenders raw), store) ∧
      materialOffenders raw ≠ []) ∧
    (dget raw "course" = some (JValue.str c) → c ∈ courseEnum →
      materialOffends raw "course" = false) ∧
    (dget raw "type" = some (JValue.str c) → c ∉ materialTypeEnum →
      post_material store raw newId =
        (Except.error (materialOffenders raw), store) ∧
      materialOffenders raw ≠ []) ∧
    (dget raw "type" = some (JValue.str c) → c ∈ materialTypeEnum →
      materialOffends raw "type" = false) ∧
    (dget raw "course" = some (JValue.str c) → c ∉ courseEnum →
      post_tutor store raw newId =
        (Except.error (tutorOffenders raw), store) ∧
      tutorOffenders raw ≠ []) ∧
    (dget raw "course" = some (JValue.str c) → c ∈ courseEnum →
      tutorOffends raw "course" = false) ∧
    (dget raw "modes" = some (JValue.arrS xs) → ¬(∀ x ∈ xs, x ∈ modeEnum) →
      post_tutor store raw newId =
        (Except.error (tutorOffenders raw), store) ∧
      tutorOffenders raw ≠ []) ∧
    (dget raw "modes" = some (JValue.arrS xs) → (∀ x ∈ xs, x ∈ modeEnum) →
      tutorOffends raw "modes" = false) ∧
    (dget raw "mode" = some (JValue.str c) → c ∉ modeEnum →
      post_booking store raw newId =
        (BookingOutcome.invalid (bookingOffenders raw), store) ∧
      bookingOffenders raw ≠ []) ∧
    (dget raw "mode" = some (JValue.str c) → c ∈ modeEnum →
      bookingOffends raw "mode" = false) ∧
    (dget raw "status" = some (JValue.str c) → c ∉ statusEnum →
      post_booking store raw newId =
        (BookingOutcome.invalid (bookingOffenders raw), store) ∧
      bookingOffenders raw ≠ []) ∧
    (dget raw "status" = some (JValue.str c) → c ∈ statusEnum →
      bookingOffends raw "status" = false) := by
  have emc : materialOffends raw "course" = (vEnumStr raw "course" courseEnum).isNone := rfl
  have emt : materialOffends raw "type" = (vEnumStr raw "type" materialTypeEnum).isNone := rfl
  have etc2 : tutorOffends raw "course" = (vEnumStr raw "course" courseEnum).isNone := rfl
  have etm : tutorOffends raw "modes" = (vModes raw).isNone := rfl
  have ebm : bookingOffends raw "mode" = (vEnumStr raw "mode" modeEnum).isNone := rfl
  have ebs : bookingOffends raw "status" = (vEnumStrD raw "status" statusEnum "pending").isNone := rfl
  refine ⟨?_, ?_, ?_, ?_, ?_, ?_, ?_, ?_, ?_, ?_, ?_, ?_⟩
  · intro h hc
    have ho : materialOffends raw "course" = true := by
      rw [emc]; simp [vEnumStr, h, hc]
    have hne := filter_ne_nil_of_mem materialFieldOrder (materialOffends raw)
      "course" (by simp [materialFieldOrder]) ho
    exact ⟨post_material_error store raw newId hne, hne⟩
  · intro h hc
    rw [emc]; simp [vEnumStr, h, hc]
  · intro h hc
    have ho : materialOffends raw "type" = true := by
      rw [emt]; simp [vEnumStr, h, hc]
    have hne := filter_ne_nil_of_mem materialFieldOrder (materialOffends raw)
      "type" (by simp [materialFieldOrder]) ho
    exact ⟨post_material_error store raw newId hne, hne⟩
  · intro h hc
    rw [emt]; simp [vEnumStr, h, hc]
  · intro h hc
    have ho : tutorOffends raw "course" = true := by
      rw [etc2]; simp [vEnumStr, h, hc]
    have hne := filter_ne_nil_of_mem tutorFieldOrder (tutorOffends raw)
      "course" (by simp [tutorFieldOrder]) ho
    exact ⟨post_tutor_error store raw newId hne, hne⟩
  · intro h hc
    rw [etc2]; simp [vEnumStr, h, hc]
  · intro h hc
    have ho : tutorOffends raw "modes" = true := by
      rw [etm]; simp [vModes, h]
      push_neg at hc
      simpa using hc
    have hne := filter_ne_nil_of_mem tutorFieldOrder (tutorOffends raw)
      "modes" (by simp [tutorFieldOrder]) ho
    exact ⟨post_tutor_error store raw newId hne, hne⟩
  · intro h hc
    rw [etm]
    simp only [vModes, h]
    rw [if_pos (List.all_eq_true.mpr (by simpa using hc))]
    rfl
  · intro h hc
    have ho : bookingOffends raw "mode" = true := by
      rw [ebm]; simp [vEnumStr, h, hc]
    have hne := filter_ne_nil_of_mem bookingFieldOrder (bookingOffends raw)
      "mode" (by simp [bookingFieldOrder]) ho
    exact ⟨post_booking_error store raw newId hne, hne⟩
  · intro h hc
    rw [ebm]; simp [vEnumStr, h, hc]
  · intro h hc
    have ho : bookingOffends raw "status" = true := by
      rw [ebs]; simp [vEnumStrD, h, hc]
    have hne := filter_ne_nil_of_mem bookingFieldOrder (bookingOffends raw)
      "status" (by simp [bookingFieldOrder]) ho
    exact ⟨post_booking_error store raw newId hne, hne⟩
  · intro h hc
    rw [ebs]; simp [vEnumStrD, h, hc]

/-- Witness for `C2`: a material body whose `course` is outside the
enumeration is rejected with the offending field and nothing is inserted. -/
theorem claim_C2_closed_enums_witness :
    post_material ⟨[], [], []⟩ [("course", JValue.str "Astrology")]
        "eeeeeeeeeeeeeeeeeeeeeeee" =
      (Except.error (materialOffenders [("course", JValue.str "Astrology")]),
       ⟨[], [], []⟩) ∧
    materialOffenders [("course", JValue.str "Astrology")] ≠ [] :=
  (claim_C2_closed_enums ⟨[], [], []⟩ [("course", JValue.str "Astrology")]
    "eeeeeeeeeeeeeeeeeeeeeeee" "Astrology" []).1 (by decide) (by decide)

/-! ### `C9`: first offending field -/

theorem head_filter_eq_find {α : Type} (l : List α) (p : α → Bool) :
    (l.filter p).head? = l.find? p := by
  induction l with
  | nil => rfl
  | cons a l ih => by_cases h : p a <;> simp [List.filter_cons, List.find?, h, ih]

theorem create_booking_not_invalid (store : Store) (b : Booking)
    (newId : String) (es : List String) :
    (create_booking store b newId).1 ≠ BookingOutcome.invalid es := by
  unfold create_booking
  rcases parseOid b.tutor_id with _ | tid
  · simp
  · by_cases hpf : pyFalsyDoc (find_one_id store.tutor tid) = true
    · simp [hpf]
    · simp [hpf, create_document]

/-- `C9`: a body failing schema validation is rejected with a nonempty list
of offending fields whose head is the first offending field in declaration
order, for each of the three resource kinds. -/
theorem claim_C9_first_offender (store : Store) (raw : Doc) (newId : String) :
    (∀ es, (post_material store raw newId).1 = Except.error es →
      es ≠ [] ∧ es.head? = materialFieldOrder.find? (materialOffends raw)) ∧
    (∀ es, (post_tutor store raw newId).1 = Except.error es →
      es ≠ [] ∧ es.head? = tutorFieldOrder.find? (tutorOffends raw)) ∧
    (∀ es, (post_booking store raw newId).1 = BookingOutcome.invalid es →
      es ≠ [] ∧ es.head? = bookingFieldOrder.find? (bookingOffends raw)) := by
  refine ⟨?_, ?_, ?_⟩
  · intro es he
    by_cases hne : materialOffenders raw = []
    · simp [post_material, validateMaterial, hne, create_material,
        create_document] at he
    · rw [post_material_error store raw newId hne] at he
      have heq : materialOffenders raw = es := by simpa using he
      subst heq
      exact ⟨hne, head_filter_eq_find materialFieldOrder (materialOffends raw)⟩
  · intro es he
    by_cases hne : tutorOffenders raw = []
    · simp [post_tutor, validateTutor, hne, create_tutor, create_document] at he
    · rw [post_tutor_error store raw newId hne] at he
      have heq : tutorOffenders raw = es := by simpa using he
      subst heq
      exact ⟨hne, head_filter_eq_find tutorFieldOrder (tutorOffends raw)⟩
  · intro es he
    by_cases hne : bookingOffenders raw = []
    · have hok : post_booking store raw newId =
          create_booking store
            ((validateBooking raw).toOption.getD
              ⟨"", "", "", "", "", 1, none, none, ""⟩) newId := by
        simp [post_booking, validateBooking, hne, Except.toOption]
      rw [hok] at he
      exact absurd he (create_booking_not_invalid store _ newId es)
    · rw [post_booking_error store raw newId hne] at he
      have heq : bookingOffenders raw = es := by simpa using he
      subst heq
      exact ⟨hne, head_filter_eq_find bookingFieldOrder (bookingOffends raw)⟩

/-- Witness for `C9` on the empty body: validation fails and the reported
list starts with `title`, the first offending field. -/
theorem claim_C9_first_offender_witness :
    (["title", "course", "subject", "type", "author_name"] : List String) ≠ [] ∧
    (["title", "course", "subject", "type", "author_name"] : List String).head? =
      materialFieldOrder.find? (materialOffends []) :=
  (claim_C9_first_offender ⟨[], [], []⟩ [] "eeeeeeeeeeeeeeeeeeeeeeee").1
    ["title", "course", "subject", "type", "author_name"] (by decide)

/-! ### `C5`: default population of omitted material fields -/

/-- `C5`: a material body omitting `price`, `rating`, `downloads` and
`university` that passes validation yields an insertion document carrying
the documented defaults: price 0, rating 4.8, downloads 0, and the default
university. -/
theorem claim_C5_material_defaults (raw : Doc) (m : Material)
    (hp : dget raw "price" = none) (hr : dget raw "rating" = none)
    (hd : dget raw "downloads" = none) (hu : dget raw "university" = none)
    (hv : validateMaterial raw = Except.ok m) :
    dget (materialFields m) "price" = some (JValue.num 0) ∧
    dget (materialFields m) "rating" = some (JValue.num (mkRat 24 5)) ∧
    dget (materialFields m) "downloads" = some (JValue.num 0) ∧
    dget (materialFields m) "university" =
      some (JValue.str "Pamantasan ng Lungsod ng Valenzuela") := by
  unfold validateMaterial at hv
  by_cases hne : materialOffenders raw = []
  · rw [if_pos hne] at hv
    have hm := Except.ok.inj hv
    rw [← hm]
    refine ⟨?_, ?_, ?_, ?_⟩
    · simp [materialFields, dget_cons, vNumGe, hp]
    · simp [materialFields, dget_cons, vOptNumRange, hr, optNumJ]
    · simp [materialFields, dget_cons, vOptIntGe, hd, optIntJ]
    · simp [materialFields, dget_cons, vStrD, hu, defaultUniversity]
  · rw [if_neg hne] at hv
    simp at hv

/-- Witness for `C5` on a body carrying only the required fields. -/
theorem claim_C5_material_defaults_witness :
    dget (materialFields
        ⟨"T", none, "Nursing", "S", "Reviewer", 0, "A",
         "Pamantasan ng Lungsod ng Valenzuela", none, some (mkRat 24 5),
         some 0⟩) "price" = some (JValue.num 0) ∧
    dget (materialFields
        ⟨"T", none, "Nursing", "S", "Reviewer", 0, "A",
         "Pamantasan ng Lungsod ng Valenzuela", none, some (mkRat 24 5),
         some 0⟩) "rating" = some (JValue.num (mkRat 24 5)) ∧
    dget (materialFields
        ⟨"T", none, "Nursing", "S", "Reviewer", 0, "A",
         "Pamantasan ng Lungsod ng Valenzuela", none, some (mkRat 24 5),
         some 0⟩) "downloads" = some (JValue.num 0) ∧
    dget (materialFields
        ⟨"T", none, "Nursing", "S", "Reviewer", 0, "A",
         "Pamantasan ng Lungsod ng Valenzuela", none, some (mkRat 24 5),
         some 0⟩) "university" =
      some (JValue.str "Pamantasan ng Lungsod ng Valenzuela") :=
  claim_C5_material_defaults
    [("title", JValue.str "T"), ("course", JValue.str "Nursing"),
     ("subject", JValue.str "S"), ("type", JValue.str "Reviewer"),
     ("author_name", JValue.str "A")]
    ⟨"T", none, "Nursing", "S", "Reviewer", 0, "A",
     "Pamantasan ng Lungsod ng Valenzuela", none, some (mkRat 24 5), some 0⟩
    (by decide) (by decide) (by decide) (by decide) (by decide)

/-! ### `C6`: round-trip create then list -/

/-- `C6`: posting a valid material and then listing with the same course
yields an item whose user-supplied fields equal the posted body and whose
`id` is the (non-empty) store-assigned identifier. -/
theorem claim_C6_roundtrip (store : Store) (m : Material) (newId : String)
    (h : newId ≠ "") :
    ∃ i ∈ list_materials (create_material store m newId).2
        (some m.course) none none,
      dget i "title" = some (JValue.str m.title) ∧
      dget i "description" = some (optStrJ m.description) ∧
      dget i "course" = some (JValue.str m.course) ∧
      dget i "subject" = some (JValue.str m.subject) ∧
      dget i "type" = some (JValue.str m.type) ∧
      dget i "price" = some (JValue.num m.price) ∧
      dget i "author_name" = some (JValue.str m.author_name) ∧
      dget i "university" = some (JValue.str m.university) ∧
      dget i "file_url" = some (optStrJ m.file_url) ∧
      dget i "rating" = some (optNumJ m.rating) ∧
      dget i "downloads" = some (optIntJ m.downloads) ∧
      dget i "id" = some (JValue.str newId) ∧ newId ≠ "" := by
  have hser : serialize_doc (("_id", JValue.oid newId) :: materialFields m) =
      materialFields m ++ [("id", JValue.str newId)] := by
    simp [serialize_doc, dset, ddel, materialFields, dget, List.find?]
  have hlist : list_materials (create_material store m newId).2
      (some m.course) none none =
      (get_documents ((create_material store m newId).2).material
        (materialFilter (some m.course) none)).map serialize_doc := by
    simp [list_materials, truthy]
  refine ⟨materialFields m ++ [("id", JValue.str newId)], ?_, ?_⟩
  · rw [hlist, ← hser]
    apply List.mem_map_of_mem
    unfold get_documents
    rw [List.mem_filter]
    constructor
    · simp [create_material, create_document]
    · by_cases hc : m.course = ""
      · simp [materialFilter, truthy, hc]
      · simp [materialFilter, truthy, hc, pval, materialFields, dget_cons]
  · refine ⟨?_, ?_, ?_, ?_, ?_, ?_, ?_, ?_, ?_, ?_, ?_, ?_, h⟩ <;>
      simp [materialFields, dget_cons]

/-- Witness for `C6` at a concrete material and id. -/
theorem claim_C6_roundtrip_witness :
    ("cccccccccccccccccccccccc" : String) ≠ "" ∧
    ∃ i ∈ list_materials
        (create_material ⟨[], [], []⟩
          ⟨"T", none, "Nursing", "S", "Reviewer", 0, "A",
           "Pamantasan ng Lungsod ng Valenzuela", none, some (mkRat 24 5),
           some 0⟩ "cccccccccccccccccccccccc").2
        (some "Nursing") none none,
      dget i "title" = some (JValue.str "T") ∧
      dget i "id" = some (JValue.str "cccccccccccccccccccccccc") := by
  refine ⟨by decide, ?_⟩
  obtain ⟨i, hi, hf⟩ := claim_C6_roundtrip ⟨[], [], []⟩
    ⟨"T", none, "Nursing", "S", "Reviewer", 0, "A",
     "Pamantasan ng Lungsod ng Valenzuela", none, some (mkRat 24 5), some 0⟩
    "cccccccccccccccccccccccc" (by decide)
  exact ⟨i, hi, hf.1, hf.2.2.2.2.2.2.2.2.2.2.2.1⟩

/-! ### `C8`: startup seeding -/

/-- `C8`: with no store handle, seeding does nothing and startup proceeds;
with a store, exactly the two demo materials are inserted when `material` is
empty and exactly the two demo tutors when `tutor` is empty, a non-empty
collection is left untouched, and the demo documents carry the documented
field values (titles, prices, ratings, download counts, tutor names). -/
theorem claim_C8_seed_demo (st : Store) (i1 i2 i3 i4 : String) :
    seed_demo none i1 i2 i3 i4 = none ∧
    seed_demo (some st) i1 i2 i3 i4 =
      some ⟨if st.material = [] then [demoMaterialA i1, demoMaterialB i2]
              else st.material,
            if st.tutor = [] then [demoTutorA i3, demoTutorB i4]
              else st.tutor,
            st.booking⟩ ∧
    dget (demoMaterialA i1) "title" =
      some (JValue.str "Data Structures Reviewer") ∧
    dget (demoMaterialA i1) "price" = some (JValue.num 50) ∧
    dget (demoMaterialA i1) "rating" = some (JValue.num (mkRat 49 10)) ∧
    dget (demoMaterialA i1) "downloads" = some (JValue.num 120) ∧
    dget (demoMaterialB i2) "title" =
      some (JValue.str "Circuit Analysis Handout") ∧
    dget (demoMaterialB i2) "price" = some (JValue.num 0) ∧
    dget (demoMaterialB i2) "rating" = some (JValue.num (mkRat 47 10)) ∧
    dget (demoMaterialB i2) "downloads" = some (JValue.num 88) ∧
    dget (demoTutorA i3) "name" = some (JValue.str "Maria Santos") ∧
    dget (demoTutorB i4) "name" = some (JValue.str "Mark Reyes") := by
  refine ⟨rfl, ?_, ?_, ?_, ?_, ?_, ?_, ?_, ?_, ?_, ?_, ?_⟩
  · by_cases hm : st.material = [] <;> by_cases ht : st.tutor = [] <;>
      simp [seed_demo, hm, ht, List.length_eq_zero]
  · simp [demoMaterialA, dget_cons]
  · simp [demoMaterialA, dget_cons]
  · simp [demoMaterialA, dget_cons]
  · simp [demoMaterialA, dget_cons]
  · simp [demoMaterialB, dget_cons]
  · simp [demoMaterialB, dget_cons]
  · simp [demoMaterialB, dget_cons]
  · simp [demoMaterialB, dget_cons]
  · simp [demoTutorA, dget_cons]
  · simp [demoTutorB, dget_cons]

end LearnHub
